import Mathlib

/-!
Verification of the BirdsEye core model (birdseye/sensor.py and
birdseye/state.py): sensor likelihood models, inverse sampling, the
reward function, the relative-state dynamics, and the model registry.

Python floats are embedded as exact rationals (for the closed-form
sensor/reward arithmetic) or exact reals (for the trigonometric
dynamics); `numpy.arctan2` is embedded as the complex argument,
`random.randint`/`random.choice`/`random.random` outcomes are passed as
explicit parameters constrained to the ranges the library guarantees.
-/

/-- State vector schema of the repository: an ordered 4-tuple
`[range, bearing_deg, course_deg, speed]`, embedded with named fields
(field `range` is index 0, `bearing` index 1, `course` index 2,
`speed` index 3 of the Python list). -/
structure RState where
  range : ℚ
  bearing : ℚ
  course : ℚ
  speed : ℚ
deriving DecidableEq

namespace Drone

/-- Embedding of `Drone.obs1_prob` (sensor.py lines 30-37): probability of
observation 1 as a function of the raw (unwrapped) bearing field. -/
def obs1_prob (x : RState) : ℚ :=
  if -60 ≤ x.bearing ∧ x.bearing ≤ 60 then 9/10
  else if 120 ≤ x.bearing ∧ x.bearing ≤ 240 then 1/10
  else 1/2

/-- Embedding of `Drone.weight` (sensor.py lines 17-21).  The `hyp`
parameter of the Python method is unused there and omitted here; every
observation other than `1` (valid or not) takes the `else` branch. -/
def weight (o : ℤ) (xp : RState) : ℚ :=
  if o = 1 then obs1_prob xp else 1 - obs1_prob xp

/-- Embedding of `Drone.gen_state` (sensor.py lines 40-50).  The three
`random.randint` outcomes are explicit parameters `rD` (range draw),
`bD` (bearing draw, whose admissible interval depends on `obs`) and
`cD` (course multiplier draw).  For an observation outside `{0, 1}` the
Python local `bearing` is never bound and the method raises
`NameError`, embedded as `none`. -/
def gen_state (obs rD bD cD : ℤ) : Option RState :=
  if obs = 1 ∨ obs = 0 then
    let bearing : ℤ := if bD < 0 then bD + 360 else bD
    some ⟨(rD : ℚ), (bearing : ℚ), ((cD * 30 : ℤ) : ℚ), 1⟩
  else none

end Drone

namespace Bearing

/-- Embedding of `Bearing.obs1` (sensor.py lines 91-102); `sr` is the
constructor argument `sensor_range` (default 150). -/
def obs1 (sr : ℚ) (state : RState) : ℚ :=
  let rel_brg0 := state.bearing
  let state_range := state.range
  let rel_brg := if rel_brg0 < 0 then rel_brg0 + 360 else rel_brg0
  if ((60 < rel_brg ∧ rel_brg < 90) ∨ (270 < rel_brg ∧ rel_brg < 300)) ∧
      state_range < sr/2 then 1
  else if ((60 < rel_brg ∧ rel_brg < 90) ∨ (270 < rel_brg ∧ rel_brg < 300)) ∧
      state_range < sr then 2 - 2*state_range/sr
  else 1/10000

/-- Embedding of `Bearing.obs2` (sensor.py lines 104-115).  Note the
source reads `state[2]` (the course field) as the angle and `state[1]`
(the bearing field) as the range. -/
def obs2 (sr : ℚ) (state : RState) : ℚ :=
  let rel_brg0 := state.course
  let state_range := state.bearing
  let rel_brg := if rel_brg0 < 0 then rel_brg0 + 360 else rel_brg0
  if ((90 ≤ rel_brg ∧ rel_brg < 120) ∨ (240 < rel_brg ∧ rel_brg ≤ 270)) ∧
      state_range < sr/2 then 1
  else if ((90 ≤ rel_brg ∧ rel_brg < 120) ∨ (240 < rel_brg ∧ rel_brg ≤ 270)) ∧
      state_range < sr then 2 - 2*state_range/sr
  else 1/10000

/-- Embedding of `Bearing.obs3` (sensor.py lines 117-128). -/
def obs3 (sr : ℚ) (state : RState) : ℚ :=
  let rel_brg0 := state.bearing
  let state_range := state.range
  let rel_brg := if rel_brg0 < 0 then rel_brg0 + 360 else rel_brg0
  if (120 ≤ rel_brg ∧ rel_brg ≤ 240) ∧ state_range < sr/2 then 1
  else if (120 ≤ rel_brg ∧ rel_brg ≤ 240) ∧ state_range < sr then
    2 - 2*state_range/sr
  else 1/10000

/-- Embedding of `Bearing.obs0` (sensor.py lines 130-147). -/
def obs0 (sr : ℚ) (state : RState) : ℚ :=
  let rel_brg0 := state.bearing
  let state_range := state.range
  let rel_brg := if rel_brg0 < 0 then rel_brg0 + 360 else rel_brg0
  if rel_brg ≤ 60 ∨ rel_brg ≥ 300 ∨ state_range ≥ sr then 1
  else if ¬(obs1 sr state > 0) ∧ ¬(obs2 sr state > 0) ∧ ¬(obs3 sr state > 0) then 1
  else if (120 ≤ rel_brg ∧ rel_brg ≤ 240) ∧
      (sr/2 < state_range ∧ state_range < sr) then 2*state_range/sr - 1
  else if ((90 ≤ rel_brg ∧ rel_brg < 120) ∨ (240 < rel_brg ∧ rel_brg ≤ 270)) ∧
      (sr/2 < state_range ∧ state_range < sr) then 2*state_range/sr - 1
  else if ((60 ≤ rel_brg ∧ rel_brg < 90) ∨ (270 < rel_brg ∧ rel_brg ≤ 300)) ∧
      (sr/2 < state_range ∧ state_range < sr) then 2*state_range/sr - 1
  else 1/10000

/-- Embedding of `Bearing.weight` (sensor.py lines 58-66).  The Python
method has no final `else`: for an observation outside `{0,1,2,3}` it
falls off the end and returns `None`, embedded as `none`. -/
def weight (sr : ℚ) (o : ℤ) (xp : RState) : Option ℚ :=
  if o = 0 then some (obs0 sr xp)
  else if o = 1 then some (obs1 sr xp)
  else if o = 2 then some (obs2 sr xp)
  else if o = 3 then some (obs3 sr xp)
  else none

/-- Embedding of `Bearing.gen_state` (sensor.py lines 75-89).  `bD` is
the drawn bearing: for observations 1 and 2 the source draws from one of
two symmetric sub-intervals chosen by `random.choice`, so `bD` ranges
over the union of the two closed intervals.  An observation outside
`{0,1,2,3}` leaves the local `bearing` unbound (Python `NameError`),
embedded as `none`. -/
def gen_state (obs rD bD cD : ℤ) : Option RState :=
  if obs = 0 ∨ obs = 1 ∨ obs = 2 ∨ obs = 3 then
    let bearing : ℤ := if bD < 0 then bD + 360 else bD
    some ⟨(rD : ℚ), (bearing : ℚ), ((cD * 30 : ℤ) : ℚ), 1⟩
  else none

/-- Admissible `random.randint` bearing draws of `Bearing.gen_state`,
per observation symbol (sensor.py lines 77-84). -/
def draw_ok (obs bD : ℤ) : Prop :=
  (obs = 0 → -60 ≤ bD ∧ bD ≤ 60) ∧
  (obs = 1 → (60 ≤ bD ∧ bD ≤ 90) ∨ (270 ≤ bD ∧ bD ≤ 300)) ∧
  (obs = 2 → (90 ≤ bD ∧ bD ≤ 120) ∨ (240 ≤ bD ∧ bD ≤ 270)) ∧
  (obs = 3 → 120 ≤ bD ∧ bD ≤ 240)

end Bearing

namespace RFState

/-- Embedding of `RFState.reward_func` (state.py lines 62-101).
`action_idx` is `none` for the Python default `action_idx=None`; the
source default for `action_penalty` is `-.05`, passed explicitly here. -/
def reward_func (state : RState) (action_idx : Option ℤ) (action_penalty : ℚ) : ℚ :=
  let state_range := state.range
  match action_idx with
  | some a =>
    let pen := if 2 < a ∧ a < 5 then 0 else action_penalty
    if state_range ≥ 150 then -2 + pen
    else if state_range ≤ 10 then -2 + pen
    else 1/10 + pen
  | none =>
    if state_range ≥ 150 then (-2 : ℚ)
    else if state_range ≤ 10 then -200
    else 1/10

end RFState

/-- Specification-shaped region-1 confidence (spec section 4.2): the
same piecewise shape as `Bearing.obs1`, but as an explicit function of
an angle argument and a range argument, so that which state fields the
source plugs in can be stated. -/
def region1_conf (sr ang rng : ℚ) : ℚ :=
  let a := if ang < 0 then ang + 360 else ang
  if ((60 < a ∧ a < 90) ∨ (270 < a ∧ a < 300)) ∧ rng < sr/2 then 1
  else if ((60 < a ∧ a < 90) ∨ (270 < a ∧ a < 300)) ∧ rng < sr then
    2 - 2*rng/sr
  else 1/10000

/-- Specification-shaped region-2 confidence (spec section 4.2), as an
explicit function of an angle argument and a range argument. -/
def region2_conf (sr ang rng : ℚ) : ℚ :=
  let a := if ang < 0 then ang + 360 else ang
  if ((90 ≤ a ∧ a < 120) ∨ (240 < a ∧ a ≤ 270)) ∧ rng < sr/2 then 1
  else if ((90 ≤ a ∧ a < 120) ∨ (240 < a ∧ a ≤ 270)) ∧ rng < sr then
    2 - 2*rng/sr
  else 1/10000

/-- Specification-shaped region-3 confidence (spec section 4.2), as an
explicit function of an angle argument and a range argument. -/
def region3_conf (sr ang rng : ℚ) : ℚ :=
  let a := if ang < 0 then ang + 360 else ang
  if (120 ≤ a ∧ a ≤ 240) ∧ rng < sr/2 then 1
  else if (120 ≤ a ∧ a ≤ 240) ∧ rng < sr then 2 - 2*rng/sr
  else 1/10000

/-- Registry tag for the single registered state class, `RFState`
(state.py line 212). -/
inductive StateClass
  | rfstate
deriving DecidableEq

/-- Embedding of the registry dictionary `AVAIL_STATES` (state.py lines
212-213). -/
def AVAIL_STATES : List (String × StateClass) :=
  [("rfstate", StateClass.rfstate)]

/-- Single-quote character, used by the Python repr of the key view. -/
def squote : String := String.singleton (Char.ofNat 39)

/-- Python repr of `AVAIL_STATES.keys()`, as interpolated into the
error message of `get_state`. -/
def keysRepr : String := "dict_keys([" ++ squote ++ "rfstate" ++ squote ++ "])"

/-- Embedding of Python `str.lower`, applied character by character. -/
def pylower (s : String) : String := String.mk (s.data.map Char.toLower)

/-- Embedding of `get_state` (state.py lines 215-232): lowercases the
name, looks it up in `AVAIL_STATES`, and for a missing key raises
`ValueError` (embedded as `Except.error`) with a message naming the
offending lowercased key and the registry key view. -/
def get_state (state_name : String) : Except String StateClass :=
  let n := pylower state_name
  match AVAIL_STATES.lookup n with
  | some c => Except.ok c
  | none => Except.error ("Invalid action method name, " ++ n ++
      ", entered. Must be in " ++ keysRepr)

/-- State vector over the reals, for the trigonometric dynamics of
state.py (same schema as `RState`: range, bearing_deg, course_deg,
speed). -/
structure SVec where
  range : ℝ
  bearing : ℝ
  course : ℝ
  speed : ℝ

/-- The fields of an `RFState` model instance (state.py lines 31-43):
the construction-time configuration `prob`, `target_speed`,
`target_movement` and the mutable `target_move_iter`, `target_state`,
`sensor_state`. -/
structure Model where
  prob : ℝ
  target_speed : ℝ
  target_movement : String
  target_move_iter : ℕ
  target_state : SVec
  sensor_state : SVec

/-- Outcome of the random draws available to one `update_state` call:
`u` is the `random.random()` outcome, which the library guarantees lies
in `[0, 1)`, and `choice` is the `random.choice([-1, 1])` outcome. -/
structure Draw where
  u : ℝ
  choice : ℤ
  u_nonneg : 0 ≤ u
  u_lt_one : u < 1
  choice_pm : choice = -1 ∨ choice = 1

/-- Python float modulo `a % b` for positive `b` (the result has the
sign of the divisor, so it lies in `[0, b)`), as used for the
360-degree wraps throughout state.py. -/
noncomputable def pymod (a b : ℝ) : ℝ := a - b * ⌊a / b⌋

/-- The `if x < 0: x += 360` wrap idiom of state.py. -/
noncomputable def wrap360 (a : ℝ) : ℝ := if a < 0 then a + 360 else a

/-- Embedding of `numpy.radians`: degrees to radians. -/
noncomputable def radians (d : ℝ) : ℝ := d * (Real.pi / 180)

/-- Embedding of `numpy.degrees`: radians to degrees. -/
noncomputable def degrees (r : ℝ) : ℝ := r * (180 / Real.pi)

/-- Embedding of `numpy.arctan2 y x` as the argument of the complex
number `x + y*i`, which agrees with `arctan2` on all of the plane:
range `(-pi, pi]`, and `arctan2 0 0 = 0`. -/
noncomputable def atan2 (y x : ℝ) : ℝ := Complex.arg ⟨x, y⟩

/-- Modelled from the spec: the coordinate utility `pol2cart` of
birdseye/utils.py, imported by state.py but not among the provided
sources; the spec (section 6) fixes its contract as the exact
trigonometric conversion `polar_to_cartesian(magnitude, angle_radians)
→ (x, y)`. -/
noncomputable def pol2cart (m th : ℝ) : ℝ × ℝ :=
  (m * Real.cos th, m * Real.sin th)

namespace RFState

/-- Embedding of `RFState.init_target_state` (state.py lines 46-55);
the three `random.randint` outcomes are the explicit parameters `rD`
(from `randint(25,100)`), `bD` (from `randint(0,359)`) and `cD` (from
`randint(0,11)`, multiplied by 30).  The initial speed is 1. -/
noncomputable def init_target_state (rD bD cD : ℤ) : SVec :=
  ⟨(rD : ℝ), (bD : ℝ), ((cD : ℝ) * 30), 1⟩

/-- Embedding of `RFState.circular_control` (state.py lines 205-208):
returns the `[d_crs, self.target_speed]` pair together with the model
after the call (the source increments `self.target_move_iter` on every
call). -/
noncomputable def circular_control (m : Model) (size : ℕ) : (ℝ × ℝ) × Model :=
  let d_crs : ℝ := if m.target_move_iter % size = 0 then 30 else 0
  ((d_crs, m.target_speed),
    { m with target_move_iter := m.target_move_iter + 1 })

/-- Embedding of `RFState.update_state` (state.py lines 105-163).  The
result pairs the returned relative state with the model after the call;
the model component differs from the input exactly when the source
calls `self.circular_control(5)` (that is, when `target_update` holds
and the movement mode is circular), which increments the step counter.
`d` carries this call's random-draw outcomes. -/
noncomputable def update_state (m : Model) (state : SVec) (control : ℝ × ℝ)
    (target_update : Bool) (d : Draw) : SVec × Model :=
  let r := state.range
  let spd := control.2
  let theta1 := pymod state.bearing 360
  let theta2 := pymod (theta1 - control.1) 360
  let theta := wrap360 theta2
  let crs1 := pymod state.course 360
  let crs2 := wrap360 (crs1 - control.1)
  let crs3 := pymod crs2 360
  let xy := pol2cart r (radians theta)
  let crs4 := if target_update ∧ m.target_movement = "circular"
    then crs3 + (circular_control m 5).1.1
    else if d.u ≥ m.prob then crs3 + (d.choice : ℝ) * 30 else crs3
  let m2 := if target_update ∧ m.target_movement = "circular"
    then (circular_control m 5).2 else m
  let crs := wrap360 (pymod crs4 360)
  let dxy := pol2cart m.target_speed (radians crs)
  let pos0 := xy.1 + dxy.1 - spd
  let pos1 := xy.2 + dxy.2
  let r2 := Real.sqrt (pos0 ^ 2 + pos1 ^ 2)
  let thetaOut := wrap360 (degrees (atan2 pos1 pos0))
  (⟨r2, thetaOut, crs, spd⟩, m2)

/-- Embedding of `RFState.update_sensor` (state.py lines 165-186):
deterministically overwrites the model's `sensor_state` and changes
nothing else. -/
noncomputable def update_sensor (m : Model) (control : ℝ × ℝ) : Model :=
  let r := m.sensor_state.range
  let theta_deg := m.sensor_state.bearing
  let spd := control.2
  let crs1 := pymod m.sensor_state.course 360
  let crs := pymod (wrap360 (crs1 + control.1)) 360
  let xy := pol2cart r (radians theta_deg)
  let dxy := pol2cart spd (radians crs)
  let pos0 := xy.1 + dxy.1
  let pos1 := xy.2 + dxy.2
  let r2 := Real.sqrt (pos0 ^ 2 + pos1 ^ 2)
  let thetaOut := wrap360 (degrees (atan2 pos1 pos0))
  { m with sensor_state := ⟨r2, thetaOut, crs, spd⟩ }

/-- Iterates `circular_control` with the size-5 period used by
`update_state`, collecting the returned pairs in call order. -/
noncomputable def run_circular (m : Model) : ℕ → List (ℝ × ℝ) × Model
  | 0 => ([], m)
  | n+1 =>
    let c := circular_control m 5
    let rest := run_circular c.2 n
    (c.1 :: rest.1, rest.2)

end RFState

/-- Concrete model instance in circular movement mode with a fresh
step counter. -/
noncomputable def mCirc : Model :=
  ⟨9/10, 1, "circular", 0, ⟨50, 0, 0, 1⟩, ⟨0, 0, 0, 0⟩⟩

/-- Concrete model instance with `prob = 1`, `target_speed = 0` and
random movement mode. -/
noncomputable def mFix : Model :=
  ⟨1, 0, "random", 0, ⟨50, 0, 0, 1⟩, ⟨0, 0, 0, 0⟩⟩

/-- Concrete random-draw outcome: `random.random()` returned 1/2 and
`random.choice([-1, 1])` returned 1. -/
noncomputable def draw0 : Draw :=
  ⟨1/2, 1, by norm_num, by norm_num, Or.inr rfl⟩

/-- Claim C10: for the binary-detection sensor the two likelihoods sum to
1 for every state, and `likelihood(1, s)` is 0.9 on the front cone
`[-60, 60]` of the raw bearing, 0.1 on the rear cone `[120, 240]` and
0.5 otherwise. -/
theorem claim10_binary_likelihoods_sum_one (s : RState) :
    Drone.weight 1 s + Drone.weight 0 s = 1 ∧
    Drone.weight 1 s =
      (if -60 ≤ s.bearing ∧ s.bearing ≤ 60 then 9/10
       else if 120 ≤ s.bearing ∧ s.bearing ≤ 240 then 1/10 else 1/2) := by
  constructor
  · simp only [Drone.weight]
    norm_num
  · simp only [Drone.weight, Drone.obs1_prob]
    norm_num

/-- Claim C1 counterexample: the code zeroes the penalty whenever
`2 < action_idx < 5`, so action index 4 also gets a zero penalty:
`reward_func((50,0,0,1), action_idx=4)` is `0.1`, not the
`0.1 - 0.05` the claim (penalty forced to 0 only at index 3) demands. -/
theorem claim1_counterexample :
    RFState.reward_func ⟨50, 0, 0, 1⟩ (some 4) (-(1/20)) = 1/10 ∧
    RFState.reward_func ⟨50, 0, 0, 1⟩ (some 4) (-(1/20)) ≠ 1/10 + -(1/20) := by
  constructor
  · simp only [RFState.reward_func]
    norm_num
  · simp only [RFState.reward_func]
    norm_num

/-- Claim C1 (amended): for any action index the penalty is forced to 0
exactly when `2 < action_idx < 5`, i.e. at the integer indices 3 and 4;
in the sweet-spot range band the reward is `0.1` plus the effective
penalty, so `reward_func((50,0,0,1), 3) = 0.1`,
`reward_func((50,0,0,1), 4) = 0.1` and
`reward_func((50,0,0,1), 5) = 0.1 - 0.05`. -/
theorem claim1_penalty_window (s : RState) (a : ℤ) (p : ℚ)
    (h1 : 10 < s.range) (h2 : s.range < 150) :
    RFState.reward_func s (some a) p =
      1/10 + (if 2 < a ∧ a < 5 then 0 else p) ∧
    ((2 < a ∧ a < 5) ↔ (a = 3 ∨ a = 4)) ∧
    RFState.reward_func ⟨50, 0, 0, 1⟩ (some 3) (-(1/20)) = 1/10 ∧
    RFState.reward_func ⟨50, 0, 0, 1⟩ (some 4) (-(1/20)) = 1/10 ∧
    RFState.reward_func ⟨50, 0, 0, 1⟩ (some 5) (-(1/20)) = 1/10 - 1/20 := by
  refine ⟨?_, ?_, ?_, ?_, ?_⟩
  · simp only [RFState.reward_func]
    rw [if_neg (by linarith), if_neg (by linarith)]
  · omega
  · simp only [RFState.reward_func]; norm_num
  · simp only [RFState.reward_func]; norm_num
  · simp only [RFState.reward_func]; norm_num

/-- Claim C1 witness: the amended theorem instantiated at the sweet-spot
state `(50,0,0,1)`, action index 4 and the default penalty. -/
theorem claim1_penalty_window_witness :
    10 < (⟨50, 0, 0, 1⟩ : RState).range ∧ (⟨50, 0, 0, 1⟩ : RState).range < 150 ∧
    RFState.reward_func ⟨50, 0, 0, 1⟩ (some 4) (-(1/20)) =
      1/10 + (if 2 < (4 : ℤ) ∧ (4 : ℤ) < 5 then 0 else -(1/20)) :=
  ⟨by norm_num, by norm_num,
    (claim1_penalty_window ⟨50, 0, 0, 1⟩ 4 (-(1/20)) (by norm_num) (by norm_num)).1⟩

/-- Claim C8: the quadrant bearing sensor's region-2 function evaluates
its angular-sector test on the course field (index 2) and its
range-decay test on the bearing field (index 1), while the region-1 and
region-3 functions evaluate angle on the bearing field (index 1) and
range on the range field (index 0); in particular `obs2` is entirely
independent of the range and speed fields. -/
theorem claim8_obs2_field_swap (sr : ℚ) (s : RState) :
    Bearing.obs2 sr s = region2_conf sr s.course s.bearing ∧
    Bearing.obs1 sr s = region1_conf sr s.bearing s.range ∧
    Bearing.obs3 sr s = region3_conf sr s.bearing s.range ∧
    (∀ r2 sp2 : ℚ,
      Bearing.obs2 sr ⟨r2, s.bearing, s.course, sp2⟩ = Bearing.obs2 sr s) :=
  ⟨rfl, rfl, rfl, fun _ _ => rfl⟩

/-- Claim C5 counterexample: called with an out-of-alphabet symbol,
the likelihood functions do not fail: `Drone.weight` (alphabet `{0,1}`)
silently returns the probability `1 - p1(state) = 0.1` at the
out-of-alphabet symbols 2 and 5 (it treats every symbol other than 1
as 0), and `Bearing.weight` (alphabet `{0,1,2,3}`) silently falls off
the end of its dispatch at symbol 5 and returns `None`; none of these
calls raises an error. -/
theorem claim5_counterexample :
    Drone.weight 2 ⟨50, 0, 0, 1⟩ = 1/10 ∧
    Drone.weight 5 ⟨50, 0, 0, 1⟩ = 1/10 ∧
    Bearing.weight 150 5 ⟨50, 0, 0, 1⟩ = none := by
  refine ⟨?_, ?_, ?_⟩
  · simp only [Drone.weight, Drone.obs1_prob]
    norm_num
  · simp only [Drone.weight, Drone.obs1_prob]
    norm_num
  · simp only [Bearing.weight]
    norm_num

/-- Claim C5 (amended): out-of-alphabet symbols are judged per sensor
(the binary sensor's alphabet is `{0,1}`, the quadrant sensor's is
`{0,1,2,3}`).  The inverse samplers `gen_state` of both sensors do
fail loudly on a symbol outside their own alphabet (the Python local
`bearing` is unbound, raising `NameError`, embedded as `none`), but
the likelihood functions do not: `Drone.weight` silently returns the
probability `1 - p1(state)` for every symbol other than 1 (so in
particular for its out-of-alphabet symbols such as 2, 3 or 5), and
`Bearing.weight` silently returns `None` instead of raising. -/
theorem claim5_invalid_symbol (s : RState) (sr : ℚ) (rD bD cD : ℤ) :
    (∀ o : ℤ, o ≠ 1 → Drone.weight o s = 1 - Drone.obs1_prob s) ∧
    (∀ o : ℤ, o ≠ 0 → o ≠ 1 → Drone.gen_state o rD bD cD = none) ∧
    (∀ o : ℤ, o ≠ 0 → o ≠ 1 → o ≠ 2 → o ≠ 3 →
      Bearing.weight sr o s = none) ∧
    (∀ o : ℤ, o ≠ 0 → o ≠ 1 → o ≠ 2 → o ≠ 3 →
      Bearing.gen_state o rD bD cD = none) := by
  refine ⟨?_, ?_, ?_, ?_⟩
  · intro o h1
    simp [Drone.weight, h1]
  · intro o h0 h1
    simp [Drone.gen_state, h0, h1]
  · intro o h0 h1 h2 h3
    simp [Bearing.weight, h0, h1, h2, h3]
  · intro o h0 h1 h2 h3
    simp [Bearing.gen_state, h0, h1, h2, h3]

/-- Claim C5 witness: the amended theorem instantiated at the binary
sensor's out-of-alphabet symbol 2 (for `Drone.weight` and
`Drone.gen_state`) and at symbol 5 (outside both alphabets, for
`Bearing.weight` and `Bearing.gen_state`), on the state
`(50, 0, 0, 1)`. -/
theorem claim5_invalid_symbol_witness :
    (2 : ℤ) ≠ 1 ∧ (2 : ℤ) ≠ 0 ∧
    (5 : ℤ) ≠ 0 ∧ (5 : ℤ) ≠ 1 ∧ (5 : ℤ) ≠ 2 ∧ (5 : ℤ) ≠ 3 ∧
    Drone.weight 2 ⟨50, 0, 0, 1⟩ = 1 - Drone.obs1_prob ⟨50, 0, 0, 1⟩ ∧
    Drone.gen_state 2 50 30 0 = none ∧
    Bearing.weight 150 5 ⟨50, 0, 0, 1⟩ = none ∧
    Bearing.gen_state 5 50 30 0 = none :=
  ⟨by decide, by decide, by decide, by decide, by decide, by decide,
    (claim5_invalid_symbol ⟨50, 0, 0, 1⟩ 150 50 30 0).1 2 (by decide),
    (claim5_invalid_symbol ⟨50, 0, 0, 1⟩ 150 50 30 0).2.1 2
      (by decide) (by decide),
    (claim5_invalid_symbol ⟨50, 0, 0, 1⟩ 150 50 30 0).2.2.1 5
      (by decide) (by decide) (by decide) (by decide),
    (claim5_invalid_symbol ⟨50, 0, 0, 1⟩ 150 50 30 0).2.2.2 5
      (by decide) (by decide) (by decide) (by decide)⟩

/-- Python float modulo with a positive divisor is nonnegative. -/
theorem pymod_nonneg (a b : ℝ) (hb : 0 < b) : 0 ≤ pymod a b := by
  have h1 : ((⌊a / b⌋ : ℤ) : ℝ) ≤ a / b := Int.floor_le _
  have h2 : b * ((⌊a / b⌋ : ℤ) : ℝ) ≤ b * (a / b) :=
    mul_le_mul_of_nonneg_left h1 hb.le
  have h3 : b * (a / b) = a := by field_simp
  unfold pymod
  linarith

/-- Python float modulo with a positive divisor is below the divisor. -/
theorem pymod_lt (a b : ℝ) (hb : 0 < b) : pymod a b < b := by
  have h1 : a / b < ((⌊a / b⌋ : ℤ) : ℝ) + 1 := Int.lt_floor_add_one _
  have h2 : b * (a / b) < b * (((⌊a / b⌋ : ℤ) : ℝ) + 1) :=
    (mul_lt_mul_left hb).mpr h1
  have h3 : b * (a / b) = a := by field_simp
  unfold pymod
  nlinarith

/-- Python float modulo is the identity on `[0, b)`. -/
theorem pymod_eq_self (a b : ℝ) (hb : 0 < b) (h0 : 0 ≤ a) (h1 : a < b) :
    pymod a b = a := by
  have hfl : ⌊a / b⌋ = 0 :=
    Int.floor_eq_zero_iff.mpr ⟨div_nonneg h0 hb.le, (div_lt_one hb).mpr h1⟩
  unfold pymod
  rw [hfl]
  simp

/-- The wrap idiom is the identity on nonnegative inputs. -/
theorem wrap360_of_nonneg (a : ℝ) (h : 0 ≤ a) : wrap360 a = a :=
  if_neg (not_lt.mpr h)

/-- The wrap idiom sends `(-180, 180]` into `[0, 360)`. -/
theorem wrap360_bounds (a : ℝ) (h0 : -180 < a) (h1 : a ≤ 180) :
    0 ≤ wrap360 a ∧ wrap360 a < 360 := by
  unfold wrap360
  split_ifs with h
  · constructor <;> linarith
  · constructor <;> linarith

/-- The embedded `arctan2` inherits the argument range `(-pi, pi]`. -/
theorem atan2_range (y x : ℝ) : -Real.pi < atan2 y x ∧ atan2 y x ≤ Real.pi :=
  ⟨Complex.neg_pi_lt_arg _, Complex.arg_le_pi _⟩

/-- In degrees, the embedded `arctan2` lands in `(-180, 180]`. -/
theorem degrees_atan2_range (y x : ℝ) :
    -180 < degrees (atan2 y x) ∧ degrees (atan2 y x) ≤ 180 := by
  obtain ⟨h0, h1⟩ := atan2_range y x
  have hpi : 0 < Real.pi := Real.pi_pos
  have hc : 0 < 180 / Real.pi := by positivity
  unfold degrees
  constructor
  · have h2 : (-Real.pi) * (180 / Real.pi) < atan2 y x * (180 / Real.pi) :=
      (mul_lt_mul_right hc).mpr h0
    have h3 : (-Real.pi) * (180 / Real.pi) = -180 := by
      field_simp
      ring
    linarith
  · have h2 : atan2 y x * (180 / Real.pi) ≤ Real.pi * (180 / Real.pi) :=
      (mul_le_mul_right hc).mpr h1
    have h3 : Real.pi * (180 / Real.pi) = 180 := by field_simp
    linarith

/-- A wrapped degrees-of-arctan2 value is a normalized bearing. -/
theorem bearing_normalized (y x : ℝ) :
    0 ≤ wrap360 (degrees (atan2 y x)) ∧ wrap360 (degrees (atan2 y x)) < 360 :=
  wrap360_bounds _ (degrees_atan2_range y x).1 (degrees_atan2_range y x).2

/-- A wrapped 360-modulus is a normalized course. -/
theorem course_normalized (a : ℝ) :
    0 ≤ wrap360 (pymod a 360) ∧ wrap360 (pymod a 360) < 360 := by
  have h0 := pymod_nonneg a 360 (by norm_num)
  have h1 := pymod_lt a 360 (by norm_num)
  rw [wrap360_of_nonneg _ h0]
  exact ⟨h0, h1⟩

/-- Structure of the state returned by `update_state`: its bearing is a
wrapped degrees-of-arctan2 and its course a wrapped 360-modulus. -/
theorem update_state_components (m : Model) (s : SVec) (c : ℝ × ℝ)
    (tu : Bool) (d : Draw) :
    ∃ y x a,
      ((RFState.update_state m s c tu d).1).bearing =
        wrap360 (degrees (atan2 y x)) ∧
      ((RFState.update_state m s c tu d).1).course =
        wrap360 (pymod a 360) :=
  ⟨_, _, _, rfl, rfl⟩

/-- Structure of the sensor state written by `update_sensor`: its
bearing is a wrapped degrees-of-arctan2 and its course a 360-modulus. -/
theorem update_sensor_components (m : Model) (c : ℝ × ℝ) :
    ∃ y x a,
      ((RFState.update_sensor m c).sensor_state).bearing =
        wrap360 (degrees (atan2 y x)) ∧
      ((RFState.update_sensor m c).sensor_state).course = pymod a 360 :=
  ⟨_, _, _, rfl, rfl⟩

/-- Claim C6: after every target transition (`update_state`) and every
sensor transition (`update_sensor`), the bearing and course fields of
the resulting state lie in `[0, 360)`, for every input model, state,
control, flag and random draw. -/
theorem claim6_angles_normalized (m : Model) (s : SVec) (c : ℝ × ℝ)
    (tu : Bool) (d : Draw) :
    (0 ≤ ((RFState.update_state m s c tu d).1).bearing ∧
     ((RFState.update_state m s c tu d).1).bearing < 360 ∧
     0 ≤ ((RFState.update_state m s c tu d).1).course ∧
     ((RFState.update_state m s c tu d).1).course < 360) ∧
    (0 ≤ ((RFState.update_sensor m c).sensor_state).bearing ∧
     ((RFState.update_sensor m c).sensor_state).bearing < 360 ∧
     0 ≤ ((RFState.update_sensor m c).sensor_state).course ∧
     ((RFState.update_sensor m c).sensor_state).course < 360) := by
  obtain ⟨y1, x1, a1, hb1, hc1⟩ := update_state_components m s c tu d
  obtain ⟨y2, x2, a2, hb2, hc2⟩ := update_sensor_components m c
  rw [hb1, hc1, hb2, hc2]
  refine ⟨⟨(bearing_normalized y1 x1).1, (bearing_normalized y1 x1).2,
    (course_normalized a1).1, (course_normalized a1).2⟩,
    ⟨(bearing_normalized y2 x2).1, (bearing_normalized y2 x2).2,
    pymod_nonneg a2 360 (by norm_num), pymod_lt a2 360 (by norm_num)⟩⟩

/-- Claim C3 counterexample: with `target_update = True` and circular
movement mode, a single `update_state` call increments the model's
`target_move_iter` from 0 to 1 by itself (through its internal
`circular_control(5)` call), so the call does not leave every model
field unchanged. -/
theorem claim3_counterexample :
    ((RFState.update_state mCirc ⟨50, 0, 0, 1⟩ (0, 0) true draw0).2).target_move_iter
      = 1 ∧
    mCirc.target_move_iter = 0 := by
  constructor
  · rfl
  · rfl

/-- Claim C3 (amended): an `update_state` call never changes the
model's `target_state`, `sensor_state` or configuration fields, and it
leaves `target_move_iter` unchanged as well except in the one case
where `target_update` is true and the movement mode is circular, in
which case the counter increments by 1 (the internal
`circular_control(5)` call); only the caller assigning the returned
value back changes `target_state`. -/
theorem claim3_update_state_mutation (m : Model) (s : SVec) (c : ℝ × ℝ)
    (tu : Bool) (d : Draw) :
    ((RFState.update_state m s c tu d).2).target_state = m.target_state ∧
    ((RFState.update_state m s c tu d).2).sensor_state = m.sensor_state ∧
    ((RFState.update_state m s c tu d).2).prob = m.prob ∧
    ((RFState.update_state m s c tu d).2).target_speed = m.target_speed ∧
    ((RFState.update_state m s c tu d).2).target_movement = m.target_movement ∧
    ((RFState.update_state m s c tu d).2).target_move_iter =
      (if tu ∧ m.target_movement = "circular"
       then m.target_move_iter + 1 else m.target_move_iter) := by
  have h : (RFState.update_state m s c tu d).2 =
      (if tu ∧ m.target_movement = "circular"
       then { m with target_move_iter := m.target_move_iter + 1 } else m) := rfl
  rw [h]
  split_ifs <;> exact ⟨rfl, rfl, rfl, rfl, rfl, rfl⟩

/-- Claim C7: starting from a fresh counter, ten `circular_control(5)`
calls in sequence return turn 30 on exactly the 1st and 6th calls and 0
otherwise, always pair the turn with `target_speed`, leave the counter
at 10, and every single call increments the counter by 1 regardless of
its output. -/
theorem claim7_circular_control_period (m : Model)
    (h : m.target_move_iter = 0) :
    (RFState.run_circular m 10).1.map Prod.fst =
      [30, 0, 0, 0, 0, 30, 0, 0, 0, 0] ∧
    (RFState.run_circular m 10).1.map Prod.snd =
      List.replicate 10 m.target_speed ∧
    ((RFState.run_circular m 10).2).target_move_iter = 10 ∧
    (∀ (m2 : Model) (size : ℕ),
      ((RFState.circular_control m2 size).2).target_move_iter =
        m2.target_move_iter + 1) := by
  obtain ⟨p, ts, tm, it, tst, sst⟩ := m
  dsimp only at h
  subst h
  refine ⟨?_, ?_, ?_, fun m2 size => rfl⟩
  · norm_num [RFState.run_circular, RFState.circular_control]
  · norm_num [RFState.run_circular, RFState.circular_control, List.replicate]
  · norm_num [RFState.run_circular, RFState.circular_control]

/-- Claim C7 witness: the sequence theorem instantiated at a concrete
model with a fresh counter. -/
theorem claim7_circular_control_period_witness :
    mFix.target_move_iter = 0 ∧
    (RFState.run_circular mFix 10).1.map Prod.fst =
      [30, 0, 0, 0, 0, 30, 0, 0, 0, 0] :=
  ⟨rfl, (claim7_circular_control_period mFix rfl).1⟩

/-- Claim C9: the registry lookup returns the `RFState` constructor for
the name "rfstate", and for any name whose lowercased form is not a
registry key it raises a `ValueError` whose message names the offending
(lowercased) key and embeds the repr of the valid key view
`dict_keys(...)` listing "rfstate"; it never silently defaults to a
constructor. -/
theorem claim9_registry_lookup (name : String)
    (h : pylower name ≠ "rfstate") :
    get_state "rfstate" = Except.ok StateClass.rfstate ∧
    get_state name = Except.error ("Invalid action method name, " ++
      pylower name ++ ", entered. Must be in " ++ keysRepr) ∧
    (∀ c, get_state name ≠ Except.ok c) := by
  have hbeq : (pylower name == "rfstate") = false := beq_eq_false_iff_ne.mpr h
  have herr : get_state name = Except.error ("Invalid action method name, " ++
      pylower name ++ ", entered. Must be in " ++ keysRepr) := by
    unfold get_state
    simp [AVAIL_STATES, List.lookup, hbeq]
  refine ⟨rfl, herr, fun c hc => ?_⟩
  rw [herr] at hc
  exact Except.noConfusion hc

/-- Claim C9 witness: the registry theorem instantiated at the
unregistered name "foo". -/
theorem claim9_registry_lookup_witness :
    pylower "foo" ≠ "rfstate" ∧
    get_state "foo" = Except.error ("Invalid action method name, " ++
      pylower "foo" ++ ", entered. Must be in " ++ keysRepr) :=
  ⟨by decide, (claim9_registry_lookup "foo" (by decide)).2.1⟩

/-- Helper: every binary-sensor likelihood value is one of 0.9, 0.1,
0.5, 1-0.9, 1-0.1, 1-0.5, all strictly above the 0.0001 floor. -/
theorem drone_weight_gt (o : ℤ) (s : RState) :
    Drone.weight o s > 1/10000 := by
  simp only [Drone.weight, Drone.obs1_prob]
  split_ifs <;> norm_num

/-- Helper: `obs0` returns 1 on every bearing the symbol-0 inverse
sampler can produce. -/
theorem bearing_obs0_gen_one (r b c sp : ℚ)
    (hb : (0 ≤ b ∧ b ≤ 60) ∨ (300 ≤ b ∧ b < 360)) :
    Bearing.obs0 150 ⟨r, b, c, sp⟩ = 1 := by
  simp only [Bearing.obs0]
  rw [if_neg (show ¬((b : ℚ) < 0) by rcases hb with ⟨h1, _⟩ | ⟨h1, _⟩ <;> linarith)]
  rw [if_pos (show b ≤ 60 ∨ b ≥ 300 ∨ r ≥ 150 by
    rcases hb with ⟨_, h2⟩ | ⟨h1, _⟩
    · exact Or.inl h2
    · exact Or.inr (Or.inl h1))]

/-- Helper: `obs3` is strictly above the floor on every state the
symbol-3 inverse sampler can produce. -/
theorem bearing_obs3_gen_gt (r b c sp : ℚ)
    (hr2 : r ≤ 100) (hb1 : 120 ≤ b) (hb2 : b ≤ 240) :
    Bearing.obs3 150 ⟨r, b, c, sp⟩ > 1/10000 := by
  simp only [Bearing.obs3]
  rw [if_neg (show ¬((b : ℚ) < 0) by linarith)]
  split_ifs with h1 h2
  · norm_num
  · linarith
  · exfalso
    exact h2 ⟨⟨hb1, hb2⟩, by linarith⟩

/-- Helper: `obs1` is at least the floor whenever the range is at most
100 (it can be exactly the floor at the boundary bearings 60, 90, 270,
300 that `gen_state 1` can draw). -/
theorem bearing_obs1_gen_ge (r b c sp : ℚ) (hr2 : r ≤ 100) :
    Bearing.obs1 150 ⟨r, b, c, sp⟩ ≥ 1/10000 := by
  simp only [Bearing.obs1]
  split_ifs <;> linarith

/-- Helper: `obs2` is at least the floor on every state the symbol-2
inverse sampler can produce (because of the course/bearing index swap
it usually is exactly the floor). -/
theorem bearing_obs2_gen_ge (r b c sp : ℚ) (hc0 : 0 ≤ c)
    (hb : (90 ≤ b ∧ b ≤ 120) ∨ (240 ≤ b ∧ b ≤ 270)) :
    Bearing.obs2 150 ⟨r, b, c, sp⟩ ≥ 1/10000 := by
  simp only [Bearing.obs2]
  rw [if_neg (not_lt.mpr hc0)]
  split_ifs with h1 h2
  · norm_num
  · obtain ⟨hs, hlt⟩ := h2
    rcases hb with ⟨hb1, hb2⟩ | ⟨hb1, hb2⟩ <;> linarith
  · norm_num

/-- Claim C2 (amended): for each sensor and every admissible
random-draw outcome of `sample_state_from_observation(o)`, the forward
likelihood of `o` at the sampled state is at least the floor 0.0001;
it is strictly above the floor for the binary sensor (both symbols)
and for the quadrant sensor's symbols 0 and 3, but for quadrant
symbols 1 and 2 some admissible outcomes make the likelihood exactly
the floor, so strict inequality fails there. -/
theorem claim2_inverse_sample_floor :
    (∀ (obs rD bD cD : ℤ) (s : RState),
      (obs = 0 ∨ obs = 1) →
      Drone.gen_state obs rD bD cD = some s →
      Drone.weight obs s > 1/10000) ∧
    (∀ (obs rD bD cD : ℤ) (s : RState) (w : ℚ),
      25 ≤ rD → rD ≤ 100 → 0 ≤ cD → cD ≤ 11 →
      Bearing.draw_ok obs bD →
      Bearing.gen_state obs rD bD cD = some s →
      Bearing.weight 150 obs s = some w →
      1/10000 ≤ w) ∧
    (∀ (obs rD bD cD : ℤ) (s : RState) (w : ℚ),
      (obs = 0 ∨ obs = 3) →
      25 ≤ rD → rD ≤ 100 → 0 ≤ cD → cD ≤ 11 →
      Bearing.draw_ok obs bD →
      Bearing.gen_state obs rD bD cD = some s →
      Bearing.weight 150 obs s = some w →
      1/10000 < w) := by
  refine ⟨?_, ?_, ?_⟩
  · intro obs rD bD cD s _ _
    exact drone_weight_gt obs s
  · intro obs rD bD cD s w hr1 hr2 hc1 hc2 hok hgen hw
    rcases Decidable.em (obs = 0 ∨ obs = 1 ∨ obs = 2 ∨ obs = 3) with hin | hout
    · rcases hin with h | h | h | h
      all_goals subst h
      -- obs = 0
      · obtain ⟨hb1, hb2⟩ := hok.1 rfl
        simp only [Bearing.gen_state, if_pos] at hgen
        norm_num at hgen
        subst hgen
        simp only [Bearing.weight] at hw
        norm_num at hw
        subst hw
        have hbq : (0 ≤ (if bD < 0 then (bD : ℚ) + 360 else (bD : ℚ)) ∧
            (if bD < 0 then (bD : ℚ) + 360 else (bD : ℚ)) ≤ 60) ∨
            (300 ≤ (if bD < 0 then (bD : ℚ) + 360 else (bD : ℚ)) ∧
            (if bD < 0 then (bD : ℚ) + 360 else (bD : ℚ)) < 360) := by
          split_ifs with h
          · refine Or.inr ⟨?_, ?_⟩
            · have hz : (300 : ℤ) ≤ bD + 360 := by omega
              exact_mod_cast hz
            · have hz : bD + 360 < (360 : ℤ) := by omega
              exact_mod_cast hz
          · refine Or.inl ⟨?_, ?_⟩
            · have hz : (0 : ℤ) ≤ bD := by omega
              exact_mod_cast hz
            · exact_mod_cast hb2
        rw [bearing_obs0_gen_one _ _ _ _ hbq]
        norm_num
      -- obs = 1
      · simp only [Bearing.gen_state, if_pos] at hgen
        norm_num at hgen
        subst hgen
        simp only [Bearing.weight] at hw
        norm_num at hw
        subst hw
        exact bearing_obs1_gen_ge _ _ _ _ (by exact_mod_cast hr2)
      -- obs = 2
      · obtain hu := hok.2.2.1 rfl
        have hbnn : ¬(bD < 0) := by omega
        simp only [Bearing.gen_state, if_pos] at hgen
        norm_num at hgen
        rw [if_neg hbnn] at hgen
        subst hgen
        simp only [Bearing.weight] at hw
        norm_num at hw
        subst hw
        refine bearing_obs2_gen_ge _ _ _ _ (by positivity) ?_
        rcases hu with ⟨u1, u2⟩ | ⟨u1, u2⟩
        · exact Or.inl ⟨by exact_mod_cast u1, by exact_mod_cast u2⟩
        · exact Or.inr ⟨by exact_mod_cast u1, by exact_mod_cast u2⟩
      -- obs = 3
      · obtain ⟨hb1, hb2⟩ := hok.2.2.2 rfl
        have hbnn : ¬(bD < 0) := by omega
        simp only [Bearing.gen_state, if_pos] at hgen
        norm_num at hgen
        rw [if_neg hbnn] at hgen
        subst hgen
        simp only [Bearing.weight] at hw
        norm_num at hw
        subst hw
        exact le_of_lt (bearing_obs3_gen_gt _ _ _ _ (by exact_mod_cast hr2)
          (by exact_mod_cast hb1) (by exact_mod_cast hb2))
    · rw [Bearing.gen_state, if_neg hout] at hgen
      exact absurd hgen (by simp)
  · intro obs rD bD cD s w hsel hr1 hr2 hc1 hc2 hok hgen hw
    rcases hsel with h | h
    all_goals subst h
    · obtain ⟨hb1, hb2⟩ := hok.1 rfl
      simp only [Bearing.gen_state, if_pos] at hgen
      norm_num at hgen
      subst hgen
      simp only [Bearing.weight] at hw
      norm_num at hw
      subst hw
      have hbq : (0 ≤ (if bD < 0 then (bD : ℚ) + 360 else (bD : ℚ)) ∧
          (if bD < 0 then (bD : ℚ) + 360 else (bD : ℚ)) ≤ 60) ∨
          (300 ≤ (if bD < 0 then (bD : ℚ) + 360 else (bD : ℚ)) ∧
          (if bD < 0 then (bD : ℚ) + 360 else (bD : ℚ)) < 360) := by
        split_ifs with h
        · refine Or.inr ⟨?_, ?_⟩
          · have hz : (300 : ℤ) ≤ bD + 360 := by omega
            exact_mod_cast hz
          · have hz : bD + 360 < (360 : ℤ) := by omega
            exact_mod_cast hz
        · refine Or.inl ⟨?_, ?_⟩
          · have hz : (0 : ℤ) ≤ bD := by omega
            exact_mod_cast hz
          · exact_mod_cast hb2
      rw [bearing_obs0_gen_one _ _ _ _ hbq]
      norm_num
    · obtain ⟨hb1, hb2⟩ := hok.2.2.2 rfl
      have hbnn : ¬(bD < 0) := by omega
      simp only [Bearing.gen_state, if_pos] at hgen
      norm_num at hgen
      rw [if_neg hbnn] at hgen
      subst hgen
      simp only [Bearing.weight] at hw
      norm_num at hw
      subst hw
      exact bearing_obs3_gen_gt _ _ _ _ (by exact_mod_cast hr2)
        (by exact_mod_cast hb1) (by exact_mod_cast hb2)

/-- Claim C2 counterexample: for the quadrant bearing sensor and
symbol 1, the admissible draw `bearing = 60` (an endpoint of
`randint(60, 90)`) together with range 50 and course 0 produces the
state `(50, 60, 0, 1)` whose forward likelihood of symbol 1 is exactly
the floor 0.0001, not strictly greater. -/
theorem claim2_counterexample :
    ((60 : ℤ) ≤ 60 ∧ (60 : ℤ) ≤ 90) ∧
    Bearing.gen_state 1 50 60 0 = some ⟨50, 60, 0, 1⟩ ∧
    Bearing.weight 150 1 ⟨50, 60, 0, 1⟩ = some (1/10000) ∧
    ¬((1 : ℚ)/10000 > 1/10000) := by
  refine ⟨by decide, by norm_num [Bearing.gen_state], ?_, by norm_num⟩
  norm_num [Bearing.weight, Bearing.obs1]

/-- Claim C2 witness: the amended theorem instantiated at quadrant
symbol 3 with draws range 50, bearing 130, course multiplier 0. -/
theorem claim2_inverse_sample_floor_witness :
    (25 ≤ (50 : ℤ) ∧ (50 : ℤ) ≤ 100 ∧ 0 ≤ (0 : ℤ) ∧ (0 : ℤ) ≤ 11) ∧
    Bearing.draw_ok 3 130 ∧
    Bearing.gen_state 3 50 130 0 = some ⟨50, 130, 0, 1⟩ ∧
    Bearing.weight 150 3 ⟨50, 130, 0, 1⟩ = some 1 ∧
    (1 : ℚ)/10000 ≤ 1 := by
  have hok : Bearing.draw_ok 3 130 := by
    refine ⟨?_, ?_, ?_, ?_⟩ <;> intro h <;> omega
  have hgen : Bearing.gen_state 3 50 130 0 = some ⟨50, 130, 0, 1⟩ := by
    norm_num [Bearing.gen_state]
  have hw : Bearing.weight 150 3 ⟨50, 130, 0, 1⟩ = some 1 := by
    norm_num [Bearing.weight, Bearing.obs3]
  exact ⟨by decide, hok, hgen, hw,
    claim2_inverse_sample_floor.2.1 3 50 130 0 ⟨50, 130, 0, 1⟩ 1 (by decide) (by decide)
      (by decide) (by decide) hok hgen hw⟩

/-- Converting degrees to radians and back is the identity. -/
theorem degrees_radians (d : ℝ) : degrees (radians d) = d := by
  unfold degrees radians
  have hpi : Real.pi ≠ 0 := Real.pi_ne_zero
  field_simp

/-- The embedded `arctan2` recovers the angle of a polar point whose
angle already lies in `(-pi, pi]`. -/
theorem atan2_polar (r t : ℝ) (hr : 0 < r) (h0 : -Real.pi < t)
    (h1 : t ≤ Real.pi) :
    atan2 (r * Real.sin t) (r * Real.cos t) = t := by
  have hmk : (⟨r * Real.cos t, r * Real.sin t⟩ : ℂ) =
      (r : ℂ) * (Complex.cos (t : ℂ) + Complex.sin (t : ℂ) * Complex.I) := by
    rw [Complex.mk_eq_add_mul_I]
    rw [← Complex.ofReal_cos, ← Complex.ofReal_sin]
    push_cast
    ring
  unfold atan2
  rw [hmk]
  exact Complex.arg_mul_cos_add_sin_mul_I hr ⟨h0, h1⟩

/-- The embedded `sqrt` of the squared polar coordinates recovers a
nonnegative magnitude. -/
theorem sqrt_polar (r t : ℝ) (hr : 0 ≤ r) :
    Real.sqrt ((r * Real.cos t) ^ 2 + (r * Real.sin t) ^ 2) = r := by
  have hs := Real.sin_sq_add_cos_sq t
  have h : (r * Real.cos t) ^ 2 + (r * Real.sin t) ^ 2 = r ^ 2 := by
    linear_combination r ^ 2 * hs
  rw [h, Real.sqrt_sq hr]

/-- Round trip of the source's polar-to-cartesian-to-polar pipeline on
the angle: for a positive magnitude and a degree angle in `[0, 360)`,
wrapping the degrees of `arctan2` of the cartesian point recovers the
angle exactly. -/
theorem wrap_degrees_atan2_polar (r th : ℝ) (hr : 0 < r)
    (h0 : 0 ≤ th) (h1 : th < 360) :
    wrap360 (degrees (atan2 (r * Real.sin (radians th))
      (r * Real.cos (radians th)))) = th := by
  have hpi : 0 < Real.pi := Real.pi_pos
  by_cases hle : th ≤ 180
  · have ht0 : -Real.pi < radians th := by
      unfold radians
      nlinarith
    have ht1 : radians th ≤ Real.pi := by
      unfold radians
      nlinarith
    rw [atan2_polar r (radians th) hr ht0 ht1, degrees_radians,
        wrap360_of_nonneg th h0]
  · push_neg at hle
    have hsin : Real.sin (radians th) = Real.sin (radians th - 2 * Real.pi) :=
      (Real.sin_sub_two_pi _).symm
    have hcos : Real.cos (radians th) = Real.cos (radians th - 2 * Real.pi) :=
      (Real.cos_sub_two_pi _).symm
    rw [hsin, hcos]
    have ht0 : -Real.pi < radians th - 2 * Real.pi := by
      unfold radians
      nlinarith
    have ht1 : radians th - 2 * Real.pi ≤ Real.pi := by
      unfold radians
      nlinarith
    rw [atan2_polar r _ hr ht0 ht1]
    have hdeg : degrees (radians th - 2 * Real.pi) = th - 360 := by
      unfold degrees radians
      field_simp
      ring
    rw [hdeg]
    unfold wrap360
    rw [if_pos (by linarith)]
    ring

/-- Helper: with `prob = 1`, `target_speed = 0` and the zero control,
`update_state` maps any state with positive range and normalized angles
to the same state with the speed field set to the control speed 0. -/
theorem update_state_zero_fixed (m : Model) (s : SVec) (d : Draw)
    (hprob : m.prob = 1) (hspd : m.target_speed = 0)
    (hr : 0 < s.range) (hb0 : 0 ≤ s.bearing) (hb1 : s.bearing < 360)
    (hc0 : 0 ≤ s.course) (hc1 : s.course < 360) :
    (RFState.update_state m s (0, 0) false d).1 =
      ⟨s.range, s.bearing, s.course, 0⟩ := by
  have e1 : pymod s.bearing 360 = s.bearing :=
    pymod_eq_self _ _ (by norm_num) hb0 hb1
  have e2 : pymod s.course 360 = s.course :=
    pymod_eq_self _ _ (by norm_num) hc0 hc1
  have e3 : wrap360 s.bearing = s.bearing := wrap360_of_nonneg _ hb0
  have e4 : wrap360 s.course = s.course := wrap360_of_nonneg _ hc0
  have hu : ¬(d.u ≥ m.prob) := by
    rw [hprob]
    exact not_le.mpr d.u_lt_one
  dsimp only [RFState.update_state, pol2cart]
  simp only [sub_zero, e1, e3, e2, e4]
  rw [if_neg (show ¬((false = true) ∧ m.target_movement = "circular") by simp)]
  rw [if_neg hu]
  simp only [e2, e4, hspd, zero_mul, add_zero, sub_zero]
  rw [sqrt_polar s.range _ hr.le,
      wrap_degrees_atan2_polar s.range s.bearing hr hb0 hb1]

/-- Claim C4 (amended): for a model with `prob = 1` and
`target_speed = 0`, every `update_state` call under the zero control
`(0, 0)` returns its input state with the speed field replaced by the
control speed 0, for every random-draw outcome; hence the very first
call changes the initial state's speed field (1 becomes 0), and every
call after it is an exact fixed point. -/
theorem claim4_zero_control_fixed_point (m : Model) (s : SVec) (d : Draw)
    (hprob : m.prob = 1) (hspd : m.target_speed = 0)
    (hr : 0 < s.range) (hb0 : 0 ≤ s.bearing) (hb1 : s.bearing < 360)
    (hc0 : 0 ≤ s.course) (hc1 : s.course < 360) :
    (RFState.update_state m s (0, 0) false d).1 =
      ⟨s.range, s.bearing, s.course, 0⟩ ∧
    (s.speed = 0 → (RFState.update_state m s (0, 0) false d).1 = s) := by
  have h := update_state_zero_fixed m s d hprob hspd hr hb0 hb1 hc0 hc1
  refine ⟨h, fun hs => ?_⟩
  rw [h]
  obtain ⟨r0, b0, c0, sp0⟩ := s
  dsimp only at hs ⊢
  rw [hs]

/-- Claim C4 counterexample: from a freshly initialized target state
(whose speed field is 1), the first zero-control call does NOT return a state
equal to its input: it returns `(50, 0, 0, 0)` for input
`(50, 0, 0, 1)` because the returned speed field is the control's
speed. -/
theorem claim4_counterexample :
    RFState.init_target_state 50 0 0 = ⟨50, 0, 0, 1⟩ ∧
    (RFState.update_state mFix ⟨50, 0, 0, 1⟩ (0, 0) false draw0).1 =
      ⟨50, 0, 0, 0⟩ ∧
    (RFState.update_state mFix ⟨50, 0, 0, 1⟩ (0, 0) false draw0).1 ≠
      ⟨50, 0, 0, 1⟩ := by
  have h := update_state_zero_fixed mFix ⟨50, 0, 0, 1⟩ draw0 rfl rfl
    (by norm_num) (by norm_num) (by norm_num) (by norm_num) (by norm_num)
  have h2 : (RFState.update_state mFix ⟨50, 0, 0, 1⟩ (0, 0) false draw0).1 =
      ⟨50, 0, 0, 0⟩ := by
    simpa using h
  refine ⟨by norm_num [RFState.init_target_state], h2, ?_⟩
  rw [h2]
  intro hcon
  have hsp := congrArg SVec.speed hcon
  norm_num at hsp

/-- Claim C4 witness: the amended theorem instantiated at a concrete
model and a speed-0 state, which is an exact fixed point. -/
theorem claim4_zero_control_fixed_point_witness :
    mFix.prob = 1 ∧ mFix.target_speed = 0 ∧
    ((0 : ℝ) < 50 ∧ (0 : ℝ) ≤ 10 ∧ (10 : ℝ) < 360 ∧
      (0 : ℝ) ≤ 30 ∧ (30 : ℝ) < 360) ∧
    (RFState.update_state mFix ⟨50, 10, 30, 0⟩ (0, 0) false draw0).1 =
      ⟨50, 10, 30, 0⟩ := by
  refine ⟨rfl, rfl,
    ⟨by norm_num, by norm_num, by norm_num, by norm_num, by norm_num⟩, ?_⟩
  exact (claim4_zero_control_fixed_point mFix ⟨50, 10, 30, 0⟩ draw0 rfl rfl
    (by norm_num) (by norm_num) (by norm_num) (by norm_num) (by norm_num)).2 rfl
